import Mathlib

/-!
Shallow embedding of the golden-rules text-refinement server:
`refine_script.py` (pattern retrieval and prompt assembly) and
`sse_server.py` (the unified MCP handler `handle_mcp`).

External collaborators (the sentence-transformers embedding model, the
numpy float cosine kernel, and the OpenAI rewrite call) are modelled as
explicit function parameters, following the specification's interface
boundary: `encode` vectorises a string, `cosSim` is the similarity score
the float kernel produces for two vectors, and `rewrite` is the chat
completion call, with `Except.error` modelling a raised exception.
Vector components are modelled as rationals; the float arithmetic itself
is outside the embedding.
-/

namespace GoldenRules

/-- Embedding vectors (numpy float arrays) modelled as rational lists. -/
abbrev Vec := List ℚ

/-- One entry of the JSON pattern store `data/editing_patterns.json`:
description, procedural steps, and a before/after pair. -/
structure PatternExample where
  description : String
  steps : List String
  example_before : String
  example_after : String
deriving DecidableEq

/-- The pattern store: an insertion-ordered JSON object mapping a category
label to its examples (Python 3.7+ dicts preserve insertion order). -/
abbrev Patterns := List (String × List PatternExample)

/-- Python dict lookup `d[k]` (as an `Option`; `none` models `KeyError`)
on an insertion-ordered dict represented as an association list. -/
def lookupList {β : Type} (l : List (String × β)) (k : String) : Option β :=
  (l.find? (fun p => p.1 == k)).map Prod.snd

/-- Source constant `TOP_N_PATTERNS` of `refine_script.py`. -/
def TOP_N_PATTERNS : Nat := 3

/-- Source constant `GOLDEN_RULES` of `refine_script.py` (the fixed policy
preamble of every generated prompt). -/
def GOLDEN_RULES : String := "
以下の「黄金律」を必ず守って編集してください。

- 文章全体の意味は必ず維持すること。
- 入力の文章には論旨が欠けていることがあります。必要に応じて文脈を補完してください。
- 書き直しでは、元の文にある語彙だけを使い、お手本からは語彙を取り出さないでください。
- 送り仮名の使い方は、元の文ではなく、お手本の傾向に合わせてください。
- 「多いです」のような「イ形容詞＋です」は、お手本を参考にして別の表現に置き換えてください。
- 「非常に」や「かなり」のような形骸化した強調表現は、意味を変えずに取り除いてください。
- 文脈に依存せずに誤読しない表現へと置き換えてください。たとえば、目的でなく根拠を示すときは「～のため」を「～なので」に置き換えることで、文脈に依存せずに誤読を防げます。
- 入力の文章に含まれる「ことができます」、「すること」、「行う」といった冗長な表現は、お手本を参考にして、より簡潔な表現に変換してください。
- 入力の文章には目的語が省略されている場合があります。その場合は、入力から推測できる目的語を補ってください。お手本からは目的語を取り出さないでください。お手本は目的語をどのような文体で挿入するかの参考にしてください。
- 副詞などはひらがなにしてください。具体的には「毎」「全く」「無い」「1つ目」などの漢字はひらがなに置き換えてください。
- 日本語の文章における丸括弧では全角記号を使ってください。
- [@...]や[-@...]は、参考文献のcitationや相互参照です。書き替え後も該当箇所に残してください。
"

/-- Componentwise sum of a stack of vectors, the numpy reduction behind
`.mean(axis=0)` on the matrix returned by the batched encode call. -/
def vecSum : List Vec → Vec
  | [] => []
  | v :: vs => vs.foldl (fun acc w => acc.zipWith (· + ·) w) v

/-- Componentwise arithmetic mean, numpy `.mean(axis=0)`. -/
def vecMean (vs : List Vec) : Vec :=
  (vecSum vs).map (fun x => x / (vs.length : ℚ))

/-- Source function `compute_category_embeddings` of `refine_script.py`:
for every category, the mean of the encoded descriptions of its examples. -/
def compute_category_embeddings (encode : String → Vec) (patterns : Patterns) :
    List (String × Vec) :=
  patterns.map (fun p => (p.1, vecMean ((p.2.map (fun e => e.description)).map encode)))

/-- The ordering used by `similarities.sort(key=lambda x: x[1], reverse=True)`:
descending by similarity score. Python `list.sort` is a stable sort, and a
stable sort with respect to a total preorder is extensionally unique, so
`List.insertionSort` with this relation embeds it exactly. -/
def simRel (a b : String × ℚ) : Prop := b.2 ≤ a.2

instance : DecidableRel simRel := fun a b => inferInstanceAs (Decidable (b.2 ≤ a.2))

instance : IsTotal (String × ℚ) simRel := ⟨fun a b => le_total b.2 a.2⟩

instance : IsTrans (String × ℚ) simRel := ⟨fun _ _ _ h1 h2 => le_trans h2 h1⟩

/-- The `similarities` list built inside `find_top_patterns`: one
`(category, score)` pair per fingerprint, in the store's enumeration
order. -/
def similarityList (encode : String → Vec) (cosSim : Vec → Vec → ℚ)
    (input_text : String) (category_embeddings : List (String × Vec)) :
    List (String × ℚ) :=
  let input_emb := encode input_text
  category_embeddings.map (fun p => (p.1, cosSim input_emb p.2))

/-- Source function `find_top_patterns` of `refine_script.py`: score every
category, sort descending by score (stably), truncate to `top_n`, and keep
the labels. The call sites pass `TOP_N_PATTERNS`. -/
def find_top_patterns (encode : String → Vec) (cosSim : Vec → Vec → ℚ)
    (input_text : String) (category_embeddings : List (String × Vec))
    (top_n : Nat) : List String :=
  (((similarityList encode cosSim input_text category_embeddings).insertionSort
      simRel).take top_n).map Prod.fst

/-- One exemplar block of the prompt: the f-string built inside the loop of
`generate_prompt`, after its `.strip()` (Python `str.strip` is modelled by
`String.trim`). -/
def instructionBlock (cat : String) (ex : PatternExample) : String :=
  let steps := String.intercalate "\n" (ex.steps.map (fun s => "- " ++ s))
  String.trim ("\n### 編集方針: " ++ cat ++ "\n" ++ ex.description ++
    "\n編集手順:\n" ++ steps ++ "\n改善例:\n編集前:\n" ++ ex.example_before ++
    "\n編集後:\n" ++ ex.example_after ++ "\n")

/-- The outer f-string of `generate_prompt`, after its `.strip()`: the
fixed preamble, the combined per-category instructions, then the input
text. -/
def promptShell (combined_instructions : String) (input_text : String) : String :=
  String.trim ("\nあなたは日本語の文章を推敲しています。以下の黄金律と編集方針を守って改善してください。\n\n## 黄金律:\n" ++
    GOLDEN_RULES ++ "\n\n## 編集方針:\n" ++ combined_instructions ++
    "\n\n## 改善対象の文章:\n" ++ input_text ++ "\n\n改善後の文章のみを出力してください。\n")

/-- Source function `generate_prompt` of `refine_script.py`. `Except.error`
models the exception the Python code raises while collecting exemplars
(`KeyError` on a missing category, or `IndexError` on an empty example
list; the exception's rendering is abstracted as a tagged message); the
server catches it and embeds its text in the reply. -/
def generate_prompt (input_text : String) (selected_categories : List String)
    (patterns : Patterns) : Except String String := do
  let instructions ← selected_categories.mapM (fun cat =>
    match lookupList patterns cat with
    | Option.none => Except.error ("KeyError: " ++ cat)
    | Option.some [] => Except.error "list index out of range"
    | Option.some (ex :: _) => Except.ok (instructionBlock cat ex))
  let combined_instructions := String.intercalate "\n\n" instructions
  pure (promptShell combined_instructions input_text)

/-- Completion item of the refinement result payload of `sse_server.py`
(fields `label`, `kind`, `detail`). -/
structure CompletionItem where
  label : String
  kind : Nat
  detail : String
deriving DecidableEq

/-- Result payloads the dispatcher can produce: the capability set, or the
completion-items wrapper around the refined text. -/
inductive ResultPayload where
  | capabilities
  | items (item : CompletionItem)
deriving DecidableEq

/-- A JSON-RPC outcome: exactly one of `result` (possibly JSON `null`,
modelled by `none`) or `error` with numeric code and message. -/
inductive RpcOutcome where
  | result (payload : Option ResultPayload)
  | error (code : Int) (message : String)
deriving DecidableEq

/-- The JSON-RPC reply body: the echoed request id and the outcome. -/
structure RpcReply where
  reqId : Option Int
  outcome : RpcOutcome
deriving DecidableEq

/-- The parsed POST body, projected to what the handler reads:
`data.get("method")`, `data.get("id")`, and
`data.get("params", {}).get("text", "")`. -/
structure Envelope where
  method : Option String
  reqId : Option Int
  paramsText : String
deriving DecidableEq

/-- The module-level collaborators of `sse_server.py`: the embedding
model, the float cosine kernel, the loaded pattern store, the precomputed
category fingerprints, and the OpenAI rewrite call (`Except.error` models
a raised exception). -/
structure Collab where
  encode : String → Vec
  cosSim : Vec → Vec → ℚ
  patterns : Patterns
  embeddings : List (String × Vec)
  rewrite : String → Except String String

/-- Collaborator-invocation counters instrumenting the embedding, so that
statements like "a stub collaborator observes zero calls" are provable:
how often the handler invoked the retrieval engine
(`find_top_patterns`), the prompt composer (`generate_prompt`), and the
external rewrite call. -/
structure Effects where
  retrievalCalls : Nat
  composeCalls : Nat
  rewriteCalls : Nat
deriving DecidableEq

/-- Python truthiness of `request.headers.get("X-Client-ID")`: both a
missing header (`None`) and an empty value are falsy, so both fall back to
sole-connection resolution. -/
def pyTruthy : Option String → Bool
  | Option.none => false
  | Option.some s => !(s == "")

/-- Python `str(...)` as applied by the f-string on `data.get("method")`:
an absent method renders as `None`. -/
def pyStr : Option String → String
  | Option.none => "None"
  | Option.some s => s

/-- Python truthiness of `text.strip()`: `not text.strip()` holds exactly
when every character of `text` is whitespace (stripping removes leading
and trailing whitespace, leaving the empty string iff nothing else is
there). -/
def pyStripEmpty (s : String) : Bool := s.data.all Char.isWhitespace

/-- Membership test and lookup `clients[client_id]` on the registry
(a Python dict, keys unique, insertion-ordered). -/
def lookupClient {Conn : Type} (clients : List (String × Conn)) (cid : String) :
    Option Conn :=
  (clients.find? (fun p => p.1 == cid)).map Prod.snd

/-- The fallback `next(iter(clients))` guarded by `len(clients) == 1`: the
sole registered identifier, when exactly one connection is registered. -/
def fallbackClient {Conn : Type} (clients : List (String × Conn)) : Option String :=
  match clients with
  | [c] => Option.some c.1
  | _ => Option.none

/-- Lines 110-137 of `sse_server.py`: connection resolution. If the header
is falsy, fall back to the sole registered connection (failing with the
ambiguous error when zero or several are registered); an identifier not
present in the registry fails with the not-connected error. Both errors
carry code `-32000`. -/
def resolveClient {Conn : Type} (header : Option String)
    (clients : List (String × Conn)) : Except (Int × String) (String × Conn) :=
  match (if pyTruthy header then header else fallbackClient clients) with
  | Option.none => Except.error (-32000, "Client not connected (ambiguous client selection)")
  | Option.some cid =>
    match lookupClient clients cid with
    | Option.none => Except.error (-32000, "Client not connected")
    | Option.some conn => Except.ok (cid, conn)

/-- Lines 140-189 of `sse_server.py`: method dispatch (run only after a
connection was resolved), mirroring the if/elif/else chain. Returns the
JSON-RPC outcome paired with the collaborator-call counters. -/
def dispatch_method (collab : Collab) (env : Envelope) : RpcOutcome × Effects :=
  if env.method = Option.some "initialize" then
    (RpcOutcome.result (Option.some ResultPayload.capabilities), ⟨0, 0, 0⟩)
  else if env.method = Option.some "sampling/createMessage" then
    let text := env.paramsText
    if pyStripEmpty text then
      (RpcOutcome.result Option.none, ⟨0, 0, 0⟩)
    else
      let top_categories :=
        find_top_patterns collab.encode collab.cosSim text collab.embeddings TOP_N_PATTERNS
      match generate_prompt text top_categories collab.patterns with
      | Except.error e => (RpcOutcome.error (-32000) ("Refinement error: " ++ e), ⟨1, 1, 0⟩)
      | Except.ok prompt =>
        match collab.rewrite prompt with
        | Except.error e => (RpcOutcome.error (-32000) ("Refinement error: " ++ e), ⟨1, 1, 1⟩)
        | Except.ok refined_text =>
          (RpcOutcome.result (Option.some (ResultPayload.items ⟨refined_text, 1, "Refined text"⟩)),
            ⟨1, 1, 1⟩)
  else
    (RpcOutcome.error (-32601) ("Method not found: " ++ pyStr env.method), ⟨0, 0, 0⟩)

/-- Everything the POST branch produces: the direct HTTP reply, the
collaborator-call counters, the attempted SSE push (target connection and
whether the write succeeded; `none` when no push was attempted), and the
registry afterwards. -/
structure PostOutcome (Conn : Type) where
  reply : RpcReply
  effects : Effects
  pushAttempt : Option (Conn × Bool)
  clientsAfter : List (String × Conn)
deriving DecidableEq

/-- Lines 89-200 of `sse_server.py`, the POST branch of `handle_mcp`:
parse (a `none` body models a JSON parse failure), resolve the target
connection, dispatch, best-effort push of the same reply onto the resolved
SSE stream (`push` returns whether the write succeeded; a failure is only
logged), and return the direct HTTP reply. -/
def handle_mcp_post {Conn : Type} (collab : Collab) (push : Conn → RpcReply → Bool)
    (clients : List (String × Conn)) (header : Option String)
    (body : Option Envelope) : PostOutcome Conn :=
  match body with
  | Option.none =>
    ⟨⟨Option.none, RpcOutcome.error (-32700) "Parse error"⟩, ⟨0, 0, 0⟩, Option.none, clients⟩
  | Option.some env =>
    match resolveClient header clients with
    | Except.error e =>
      ⟨⟨env.reqId, RpcOutcome.error e.1 e.2⟩, ⟨0, 0, 0⟩, Option.none, clients⟩
    | Except.ok (_, conn) =>
      let outcome := dispatch_method collab env
      let reply : RpcReply := ⟨env.reqId, outcome.1⟩
      ⟨reply, outcome.2, Option.some (conn, push conn reply), clients⟩

/-- How the GET branch of `handle_mcp` terminates: a raised exception
while writing the initial event (lines 71-73, before the try/finally), a
cancellation inside the ping loop, or any other exception inside the ping
loop. -/
inductive GetTrigger where
  | initWriteFailure
  | loopCancelled
  | loopWriteFailure
deriving DecidableEq

/-- Registry removal `clients.pop(client_id, None)`. -/
def popClient {Conn : Type} (clients : List (String × Conn)) (cid : String) :
    List (String × Conn) :=
  clients.eraseP (fun p => p.1 == cid)

/-- Lines 37-87 of `sse_server.py`, the GET branch of `handle_mcp`,
projected to its effect on the client registry: the connection is
registered (line 55) BEFORE the initial event write (lines 71-73), and the
try/finally whose `finally` pops the registration spans only the ping loop
(lines 76-86). An exception raised by the initial write therefore
propagates without running the cleanup, while either loop exit
(cancellation or any other exception) reaches the `finally` exactly once. -/
def handle_mcp_get {Conn : Type} (clients : List (String × Conn))
    (client_id : String) (response : Conn) (trigger : GetTrigger) :
    List (String × Conn) :=
  let registered := clients ++ [(client_id, response)]
  match trigger with
  | GetTrigger.initWriteFailure => registered
  | GetTrigger.loopCancelled => popClient registered client_id
  | GetTrigger.loopWriteFailure => popClient registered client_id

/-- Specification-side composition (spec section 4.5), stated
independently of `generate_prompt`: the exemplar blocks, one per ranked
category, each drawn from the FIRST example stored under that category,
kept in ranking order. -/
def exemplarBlocks (patterns : Patterns) : List String → Except String (List String)
  | [] => Except.ok []
  | c :: cs =>
    match lookupList patterns c with
    | Option.none => Except.error ("KeyError: " ++ c)
    | Option.some [] => Except.error "list index out of range"
    | Option.some (ex :: _) =>
      match exemplarBlocks patterns cs with
      | Except.error e => Except.error e
      | Except.ok bs => Except.ok (instructionBlock c ex :: bs)

/-- Specification-side prompt assembly (spec section 4.5): fixed policy
preamble, then the exemplars in ranking order, then the input text. -/
def composeSpec (input_text : String) (ranked : List String) (patterns : Patterns) :
    Except String String :=
  match exemplarBlocks patterns ranked with
  | Except.error e => Except.error e
  | Except.ok bs => Except.ok (promptShell (String.intercalate "\n\n" bs) input_text)

/-- The first example stored under a category, with a throwaway default
for the cases the success hypotheses exclude. -/
def firstExampleD (patterns : Patterns) (cat : String) : PatternExample :=
  match lookupList patterns cat with
  | Option.some (ex :: _) => ex
  | _ => ⟨"", [], "", ""⟩

/-- Concrete fixture: a collaborator set whose rewrite echoes its prompt. -/
def collab0 : Collab :=
  ⟨fun _ => [], fun _ _ => 0, [], [], fun s => Except.ok s⟩

/-- Concrete fixture: an SSE push that always succeeds. -/
def push0 : Nat → RpcReply → Bool := fun _ _ => true

/-- Concrete fixture: an envelope with an unrecognized method name. -/
def env0 : Envelope := ⟨Option.some "ping", Option.some 5, ""⟩

/-- Concrete fixture: a refinement envelope with whitespace-only text. -/
def envBlank : Envelope := ⟨Option.some "sampling/createMessage", Option.some 1, " "⟩

/-- Concrete fixture: an embedding function. -/
def encode0 : String → Vec := fun _ => []

/-- Concrete fixture: a similarity score function. -/
def cos0 : Vec → Vec → ℚ := fun _ _ => 0

/-- Concrete fixture: two category fingerprints. -/
def cats0 : List (String × Vec) := [("a", []), ("b", [])]

/-- Concrete fixture: a pattern example. -/
def exW : PatternExample := ⟨"d", ["s1"], "b", "a"⟩

/-- Concrete fixture: a one-category pattern store. -/
def patsW : Patterns := [("cat1", [exW])]

/-- Both resolution failures of `resolveClient` carry code `-32000`. -/
theorem resolveClient_error_code {Conn : Type} (header : Option String)
    (clients : List (String × Conn)) (e : Int × String)
    (h : resolveClient header clients = Except.error e) : e.1 = -32000 := by
  unfold resolveClient at h
  cases hif : (if pyTruthy header then header else fallbackClient clients) with
  | none =>
    simp only [hif] at h
    cases h
    rfl
  | some cid =>
    simp only [hif] at h
    cases hl : lookupClient clients cid with
    | none =>
      simp only [hl] at h
      cases h
      rfl
    | some conn =>
      simp only [hl] at h
      cases h

/-- Every `RpcOutcome` is exactly one of a result or an error. -/
theorem rpcOutcome_exclusive (o : RpcOutcome) :
    ((∃ p, o = RpcOutcome.result p) ∨ ∃ c m, o = RpcOutcome.error c m)
    ∧ ¬((∃ p, o = RpcOutcome.result p) ∧ ∃ c m, o = RpcOutcome.error c m) := by
  cases o with
  | result p =>
    exact ⟨Or.inl ⟨p, rfl⟩, by rintro ⟨-, c, m, h⟩; cases h⟩
  | error c m =>
    exact ⟨Or.inr ⟨c, m, rfl⟩, by rintro ⟨⟨p, h⟩, -⟩; cases h⟩

/-- C6: a POST whose body fails to parse as JSON yields the `-32700` parse
error immediately: the reply is a fixed constant (in particular it does
not depend on the registry or the header, so no connection resolution is
attempted), no collaborator runs, no SSE push is attempted, and the
registry is left unchanged. -/
theorem spec_C6 {Conn : Type} (collab : Collab) (push : Conn → RpcReply → Bool)
    (clients : List (String × Conn)) (header : Option String) :
    (handle_mcp_post collab push clients header Option.none).reply
        = ⟨Option.none, RpcOutcome.error (-32700) "Parse error"⟩
    ∧ (handle_mcp_post collab push clients header Option.none).effects = ⟨0, 0, 0⟩
    ∧ (handle_mcp_post collab push clients header Option.none).pushAttempt = Option.none
    ∧ (handle_mcp_post collab push clients header Option.none).clientsAfter = clients :=
  ⟨rfl, rfl, rfl, rfl⟩

/-- C8: per dispatched envelope the handler is a total function producing
exactly one of result or error, and the direct HTTP reply (as well as the
collaborator counters and the registry) is identical whatever the SSE
push does — a push failure is logged only and never changes or suppresses
the reply. -/
theorem spec_C8 {Conn : Type} (collab : Collab) (clients : List (String × Conn))
    (header : Option String) (body : Option Envelope)
    (push₁ push₂ : Conn → RpcReply → Bool) :
    (handle_mcp_post collab push₁ clients header body).reply
        = (handle_mcp_post collab push₂ clients header body).reply
    ∧ (handle_mcp_post collab push₁ clients header body).effects
        = (handle_mcp_post collab push₂ clients header body).effects
    ∧ (handle_mcp_post collab push₁ clients header body).clientsAfter
        = (handle_mcp_post collab push₂ clients header body).clientsAfter
    ∧ ((∃ p, (handle_mcp_post collab push₁ clients header body).reply.outcome
            = RpcOutcome.result p)
        ∨ ∃ c m, (handle_mcp_post collab push₁ clients header body).reply.outcome
            = RpcOutcome.error c m)
    ∧ ¬((∃ p, (handle_mcp_post collab push₁ clients header body).reply.outcome
            = RpcOutcome.result p)
        ∧ ∃ c m, (handle_mcp_post collab push₁ clients header body).reply.outcome
            = RpcOutcome.error c m) := by
  refine ⟨?_, ?_, ?_,
    (rpcOutcome_exclusive (handle_mcp_post collab push₁ clients header body).reply.outcome).1,
    (rpcOutcome_exclusive (handle_mcp_post collab push₁ clients header body).reply.outcome).2⟩ <;>
  · cases body with
    | none => rfl
    | some env =>
      cases hres : resolveClient header clients with
      | error e => simp [handle_mcp_post, hres]
      | ok r =>
        obtain ⟨cid, conn⟩ := r
        simp [handle_mcp_post, hres]

/-- C5: resolution precedes dispatch. For every well-formed POST, a
resolution failure yields an error reply with code `-32000` (the
resolution error itself), with no collaborator call and no SSE push; and
conversely a `-32601` method-not-found reply can only arise after a
successful resolution. -/
theorem spec_C5 {Conn : Type} (collab : Collab) (push : Conn → RpcReply → Bool)
    (clients : List (String × Conn)) (header : Option String) (env : Envelope) :
    (∀ e, resolveClient header clients = Except.error e →
      e.1 = -32000
      ∧ (handle_mcp_post collab push clients header (Option.some env)).reply
          = ⟨env.reqId, RpcOutcome.error (-32000) e.2⟩
      ∧ (handle_mcp_post collab push clients header (Option.some env)).effects = ⟨0, 0, 0⟩
      ∧ (handle_mcp_post collab push clients header (Option.some env)).pushAttempt
          = Option.none)
    ∧ (∀ msg, (handle_mcp_post collab push clients header (Option.some env)).reply.outcome
          = RpcOutcome.error (-32601) msg →
        ∃ r, resolveClient header clients = Except.ok r) := by
  constructor
  · intro e he
    have hc : e.1 = -32000 := resolveClient_error_code header clients e he
    refine ⟨hc, ?_, ?_, ?_⟩ <;> simp [handle_mcp_post, he, hc]
  · intro msg hmsg
    cases hres : resolveClient header clients with
    | ok r => exact ⟨r, rfl⟩
    | error e =>
      have hc : e.1 = -32000 := resolveClient_error_code header clients e hres
      simp [handle_mcp_post, hres] at hmsg
      omega

/-- C1: connection resolution outcomes. With a falsy `X-Client-ID` header
(absent or empty): a sole registered connection is resolved and the reply
is pushed onto exactly that connection; zero or at least two registered
connections yield the `-32000` ambiguous error with no dispatch and no
push. An explicit identifier that is not registered yields the `-32000`
not-connected error with no dispatch and no push. -/
theorem spec_C1 {Conn : Type} (collab : Collab) (push : Conn → RpcReply → Bool)
    (header : Option String) (env : Envelope) :
    (∀ (cid : String) (conn : Conn), pyTruthy header = false →
      resolveClient header [(cid, conn)] = Except.ok (cid, conn)
      ∧ (handle_mcp_post collab push [(cid, conn)] header (Option.some env)).pushAttempt
          = Option.some (conn, push conn
              (handle_mcp_post collab push [(cid, conn)] header (Option.some env)).reply))
    ∧ (∀ clients : List (String × Conn), pyTruthy header = false → clients.length ≠ 1 →
      (handle_mcp_post collab push clients header (Option.some env)).reply
          = ⟨env.reqId, RpcOutcome.error (-32000)
              "Client not connected (ambiguous client selection)"⟩
      ∧ (handle_mcp_post collab push clients header (Option.some env)).effects = ⟨0, 0, 0⟩
      ∧ (handle_mcp_post collab push clients header (Option.some env)).pushAttempt
          = Option.none)
    ∧ (∀ (clients : List (String × Conn)) (cid : String), header = Option.some cid →
        cid ≠ "" → lookupClient clients cid = Option.none →
      (handle_mcp_post collab push clients header (Option.some env)).reply
          = ⟨env.reqId, RpcOutcome.error (-32000) "Client not connected"⟩
      ∧ (handle_mcp_post collab push clients header (Option.some env)).effects = ⟨0, 0, 0⟩
      ∧ (handle_mcp_post collab push clients header (Option.some env)).pushAttempt
          = Option.none) := by
  refine ⟨?_, ?_, ?_⟩
  · intro cid conn hfalse
    have hres : resolveClient header [(cid, conn)] = Except.ok (cid, conn) := by
      unfold resolveClient
      rw [if_neg (by simp [hfalse])]
      simp [fallbackClient, lookupClient]
    exact ⟨hres, by simp [handle_mcp_post, hres]⟩
  · intro clients hfalse hlen
    have hres : resolveClient header clients
        = Except.error (-32000, "Client not connected (ambiguous client selection)") := by
      unfold resolveClient
      rw [if_neg (by simp [hfalse])]
      match clients, hlen with
      | [], _ => rfl
      | [c], h => exact absurd rfl h
      | c₁ :: c₂ :: cs, _ => rfl
    refine ⟨?_, ?_, ?_⟩ <;> simp [handle_mcp_post, hres]
  · intro clients cid hcid hne hlook
    have hres : resolveClient header clients
        = Except.error (-32000, "Client not connected") := by
      unfold resolveClient
      rw [if_pos (by simp [hcid, pyTruthy, hne])]
      rw [hcid]
      simp [hlook]
    refine ⟨?_, ?_, ?_⟩ <;> simp [handle_mcp_post, hres]

/-- Witness for C1 at concrete inputs: the sole connection is resolved;
with zero connections and an absent header the ambiguous `-32000` error
is returned; with an unregistered explicit identifier the not-connected
`-32000` error is returned. -/
theorem spec_C1_witness :
    resolveClient Option.none [("c", (3 : Nat))] = Except.ok ("c", 3)
    ∧ (handle_mcp_post collab0 push0 [] Option.none (Option.some env0)).reply
        = ⟨env0.reqId, RpcOutcome.error (-32000)
            "Client not connected (ambiguous client selection)"⟩
    ∧ (handle_mcp_post collab0 push0 [("c", 3)] (Option.some "z")
          (Option.some env0)).reply
        = ⟨env0.reqId, RpcOutcome.error (-32000) "Client not connected"⟩ :=
  ⟨((spec_C1 collab0 push0 Option.none env0).1 "c" 3 rfl).1,
   ((spec_C1 collab0 push0 Option.none env0).2.1 [] rfl (by decide)).1,
   ((spec_C1 collab0 push0 (Option.some "z") env0).2.2 [("c", 3)] "z" rfl
      (by decide) rfl).1⟩

/-- C3: a refinement call with blank or whitespace-only text dispatches to
a `null` result with zero collaborator calls; the dispatch outcome is a
constant, independent of the collaborator set (a stub observes zero
calls), and with a resolved connection the HTTP reply carries `result:
null`. -/
theorem spec_C3 (collab : Collab) (env : Envelope)
    (hm : env.method = Option.some "sampling/createMessage")
    (ht : pyStripEmpty env.paramsText = true) :
    dispatch_method collab env = (RpcOutcome.result Option.none, ⟨0, 0, 0⟩)
    ∧ ∀ {Conn : Type} (push : Conn → RpcReply → Bool)
        (clients : List (String × Conn)) (header : Option String)
        (r : String × Conn), resolveClient header clients = Except.ok r →
        (handle_mcp_post collab push clients header (Option.some env)).reply
            = ⟨env.reqId, RpcOutcome.result Option.none⟩
        ∧ (handle_mcp_post collab push clients header (Option.some env)).effects
            = ⟨0, 0, 0⟩ := by
  have hd : dispatch_method collab env = (RpcOutcome.result Option.none, ⟨0, 0, 0⟩) := by
    unfold dispatch_method
    rw [if_neg (by simp [hm]), if_pos hm]
    simp [ht]
  refine ⟨hd, ?_⟩
  intro Conn push clients header r hres
  obtain ⟨cid, conn⟩ := r
  constructor <;> simp [handle_mcp_post, hres, hd]

/-- Witness for C3 at a concrete blank refinement call with one resolved
connection. -/
theorem spec_C3_witness :
    (handle_mcp_post collab0 push0 [("c", (3 : Nat))] (Option.some "c")
        (Option.some envBlank)).reply
      = ⟨Option.some 1, RpcOutcome.result Option.none⟩ :=
  ((spec_C3 collab0 envBlank rfl rfl).2 push0 [("c", 3)]
    (Option.some "c") ("c", 3) rfl).1

/-- C4: a POST with a method name other than the two recognized ones
yields, once a connection is resolved, the `-32601` method-not-found
error whose message contains the submitted method name. -/
theorem spec_C4 {Conn : Type} (collab : Collab) (push : Conn → RpcReply → Bool)
    (clients : List (String × Conn)) (header : Option String) (env : Envelope)
    (m : String) (r : String × Conn)
    (hm : env.method = Option.some m) (h1 : m ≠ "initialize")
    (h2 : m ≠ "sampling/createMessage")
    (hres : resolveClient header clients = Except.ok r) :
    (handle_mcp_post collab push clients header (Option.some env)).reply
        = ⟨env.reqId, RpcOutcome.error (-32601) ("Method not found: " ++ m)⟩
    ∧ ∃ pre post, "Method not found: " ++ m = pre ++ m ++ post := by
  obtain ⟨cid, conn⟩ := r
  have hd : dispatch_method collab env
      = (RpcOutcome.error (-32601) ("Method not found: " ++ m), ⟨0, 0, 0⟩) := by
    unfold dispatch_method
    rw [if_neg (by simp [hm, h1]), if_neg (by simp [hm, h2])]
    simp [hm, pyStr]
  exact ⟨by simp [handle_mcp_post, hres, hd],
    "Method not found: ", "", by simp⟩

/-- Witness for C4 at a concrete unrecognized method with a resolved
connection. -/
theorem spec_C4_witness :
    (handle_mcp_post collab0 push0 [("c", (3 : Nat))] (Option.some "c")
        (Option.some env0)).reply
      = ⟨Option.some 5, RpcOutcome.error (-32601) "Method not found: ping"⟩ :=
  (spec_C4 collab0 push0 [("c", 3)] (Option.some "c") env0 "ping" ("c", 3)
    rfl (by decide) (by decide) rfl).1

/-- Witness for C5 at a concrete resolution failure (no connections, no
header): the reply carries the `-32000` ambiguous-resolution error. -/
theorem spec_C5_witness :
    (handle_mcp_post collab0 push0 ([] : List (String × Nat)) Option.none
        (Option.some env0)).reply
      = ⟨env0.reqId, RpcOutcome.error (-32000)
          "Client not connected (ambiguous client selection)"⟩ := by
  have h := (spec_C5 collab0 push0 ([] : List (String × Nat)) Option.none env0).1
    (-32000, "Client not connected (ambiguous client selection)") rfl
  exact h.2.1

/-- Popping a freshly registered identifier undoes the registration. -/
theorem popClient_append_single {Conn : Type} (clients : List (String × Conn))
    (cid : String) (conn : Conn) (hfresh : ∀ p ∈ clients, p.1 ≠ cid) :
    popClient (clients ++ [(cid, conn)]) cid = clients := by
  unfold popClient
  rw [List.eraseP_append_right [(cid, conn)]
    (fun b hb => by simp [hfresh b hb])]
  simp

/-- Registry lookup misses an identifier no entry carries. -/
theorem lookupClient_eq_none {Conn : Type} (clients : List (String × Conn))
    (cid : String) (hfresh : ∀ p ∈ clients, p.1 ≠ cid) :
    lookupClient clients cid = Option.none := by
  unfold lookupClient
  rw [List.find?_eq_none.mpr (fun p hp => by simp [hfresh p hp])]
  rfl

/-- On a registry with unique keys (a dict), removal is idempotent. -/
theorem popClient_idem {Conn : Type} (l : List (String × Conn)) (cid : String)
    (h : (l.map Prod.fst).Nodup) :
    popClient (popClient l cid) cid = popClient l cid := by
  induction l with
  | nil => rfl
  | cons a l ih =>
    rw [List.map_cons, List.nodup_cons] at h
    by_cases ha : a.1 = cid
    · have hfresh : ∀ p ∈ l, p.1 ≠ cid := by
        intro p hp hpe
        have hmem : a.1 ∈ l.map Prod.fst := by
          rw [ha, ← hpe]
          exact List.mem_map_of_mem Prod.fst hp
        exact h.1 hmem
      unfold popClient
      rw [List.eraseP_cons_of_pos (by simp [ha]),
        List.eraseP_of_forall_not (fun p hp => by simp [hfresh p hp])]
    · unfold popClient at ih ⊢
      rw [List.eraseP_cons_of_neg (by simp [ha]),
        List.eraseP_cons_of_neg (by simp [ha]), ih h.2]

/-- C7 (amended): for a close trigger that fires inside the keepalive loop
(cancellation or any other exception; the initial capability event was
already written), the fresh connection is deregistered exactly once — the
final registry equals the one from before the stream opened — removal is
idempotent on a unique-key registry, and resolving the former identifier
afterwards yields the `-32000` not-connected error. The trigger fired
during the initial event write is excluded: see the counterexample. -/
theorem spec_C7 {Conn : Type} (clients : List (String × Conn)) (cid : String)
    (conn : Conn) (trigger : GetTrigger)
    (htr : trigger ≠ GetTrigger.initWriteFailure)
    (hfresh : ∀ p ∈ clients, p.1 ≠ cid) (hne : cid ≠ "") :
    handle_mcp_get clients cid conn trigger = clients
    ∧ lookupClient (handle_mcp_get clients cid conn trigger) cid = Option.none
    ∧ resolveClient (Option.some cid) (handle_mcp_get clients cid conn trigger)
        = Except.error (-32000, "Client not connected")
    ∧ (∀ l : List (String × Conn), (l.map Prod.fst).Nodup →
        popClient (popClient l cid) cid = popClient l cid) := by
  have hget : handle_mcp_get clients cid conn trigger = clients := by
    cases trigger with
    | initWriteFailure => exact absurd rfl htr
    | loopCancelled => exact popClient_append_single clients cid conn hfresh
    | loopWriteFailure => exact popClient_append_single clients cid conn hfresh
  have hlook : lookupClient clients cid = Option.none :=
    lookupClient_eq_none clients cid hfresh
  refine ⟨hget, ?_, ?_, fun l hl => popClient_idem l cid hl⟩
  · rw [hget]
    exact hlook
  · rw [hget]
    unfold resolveClient
    rw [if_pos (by simp [pyTruthy, hne])]
    simp [hlook]

/-- Counterexample to C7 as stated: when the write of the initial
capability event fails (an unhandled write failure — e.g. the peer
disconnected right after the stream opened — or a cancellation delivered
at that await), the registration from line 55 is never popped, because
the try/finally that performs the cleanup only begins at line 76: the
connection stays registered and resolving its identifier still succeeds. -/
theorem spec_C7_counterexample :
    handle_mcp_get ([] : List (String × Nat)) "c1" 7 GetTrigger.initWriteFailure
      = [("c1", 7)]
    ∧ resolveClient (Option.some "c1")
        (handle_mcp_get ([] : List (String × Nat)) "c1" 7 GetTrigger.initWriteFailure)
      = Except.ok ("c1", 7) :=
  ⟨rfl, rfl⟩

/-- Witness for the amended C7 at a concrete loop cancellation: the
registry is empty again and the former identifier resolves to the
not-connected error. -/
theorem spec_C7_witness :
    handle_mcp_get ([] : List (String × Nat)) "c1" 7 GetTrigger.loopCancelled = []
    ∧ resolveClient (Option.some "c1")
        (handle_mcp_get ([] : List (String × Nat)) "c1" 7 GetTrigger.loopCancelled)
      = Except.error (-32000, "Client not connected") := by
  have h := spec_C7 ([] : List (String × Nat)) "c1" 7 GetTrigger.loopCancelled
    (by decide) (by simp) (by decide)
  exact ⟨h.1, h.2.2.1⟩

/-- The exemplar-collecting loop of `generate_prompt` agrees with the
specification-side recursion `exemplarBlocks`. -/
theorem mapM_exemplar (pats : Patterns) : ∀ cs : List String,
    (cs.mapM (fun cat =>
      match lookupList pats cat with
      | Option.none => Except.error ("KeyError: " ++ cat)
      | Option.some [] => Except.error "list index out of range"
      | Option.some (ex :: _) => Except.ok (instructionBlock cat ex)))
    = exemplarBlocks pats cs := by
  intro cs
  induction cs with
  | nil => rfl
  | cons c cs ih =>
    rw [List.mapM_cons]
    cases hl : lookupList pats c with
    | none =>
      simp only [exemplarBlocks, hl, ih]
      rfl
    | some exs =>
      cases exs with
      | nil =>
        simp only [exemplarBlocks, hl, ih]
        rfl
      | cons ex rest =>
        simp only [exemplarBlocks, hl, ← ih]
        cases hrest : cs.mapM (fun cat =>
            match lookupList pats cat with
            | Option.none => Except.error ("KeyError: " ++ cat)
            | Option.some [] => Except.error "list index out of range"
            | Option.some (ex :: _) => Except.ok (instructionBlock cat ex)) with
        | error e => rfl
        | ok bs => rfl

/-- Under the hypothesis that every ranked category is stored with at
least one example, the spec-side recursion yields the per-category blocks
of the first stored examples, in ranking order. -/
theorem exemplarBlocks_of_found (pats : Patterns) : ∀ ranked : List String,
    (∀ c ∈ ranked, ∃ ex exs, lookupList pats c = Option.some (ex :: exs)) →
    exemplarBlocks pats ranked
      = Except.ok (ranked.map (fun c => instructionBlock c (firstExampleD pats c))) := by
  intro ranked
  induction ranked with
  | nil => intro _; rfl
  | cons c cs ih =>
    intro h
    obtain ⟨ex, exs, hl⟩ := h c (List.mem_cons_self c cs)
    have hfirst : firstExampleD pats c = ex := by
      unfold firstExampleD
      rw [hl]
    simp only [exemplarBlocks, hl, ih (fun x hx => h x (List.mem_cons_of_mem c hx)),
      List.map_cons, hfirst]

/-- C9: `generate_prompt` is the deterministic assembly the specification
describes: it agrees extensionally with the spec-side composition
`composeSpec` (fixed policy preamble, one exemplar per ranked category in
exactly the ranking order, then the input text), and whenever every
ranked category is stored with at least one example it produces the shell
around the blocks of the categories' FIRST stored examples, mapped in
ranking order. It is a pure function of its arguments (no retrieval or
network effects exist in the model, and dispatch counts its invocations
separately). -/
theorem spec_C9 :
    (∀ (input_text : String) (ranked : List String) (pats : Patterns),
      generate_prompt input_text ranked pats = composeSpec input_text ranked pats)
    ∧ (∀ (input_text : String) (ranked : List String) (pats : Patterns),
        (∀ c ∈ ranked, ∃ ex exs, lookupList pats c = Option.some (ex :: exs)) →
        generate_prompt input_text ranked pats
          = Except.ok (promptShell (String.intercalate "\n\n"
              (ranked.map (fun c => instructionBlock c (firstExampleD pats c))))
              input_text)) := by
  have hagree : ∀ (input_text : String) (ranked : List String) (pats : Patterns),
      generate_prompt input_text ranked pats = composeSpec input_text ranked pats := by
    intro input_text ranked pats
    unfold generate_prompt composeSpec
    rw [mapM_exemplar pats ranked]
    cases exemplarBlocks pats ranked with
    | error e => rfl
    | ok bs => rfl
  refine ⟨hagree, ?_⟩
  intro input_text ranked pats h
  rw [hagree, composeSpec, exemplarBlocks_of_found pats ranked h]

/-- Witness for C9 at a concrete store: one ranked category holding one
example. -/
theorem spec_C9_witness :
    generate_prompt "x" ["cat1"] patsW
      = Except.ok (promptShell (String.intercalate "\n\n"
          (["cat1"].map (fun c => instructionBlock c (firstExampleD patsW c)))) "x") :=
  spec_C9.2 "x" ["cat1"] patsW (by
    intro c hc
    rw [List.mem_singleton] at hc
    subst hc
    exact ⟨exW, [], rfl⟩)

/-- The componentwise fold underlying `vecSum` keeps the common dimension. -/
theorem foldl_zip_length (d : Nat) : ∀ (vs : List Vec) (acc : Vec),
    acc.length = d → (∀ v ∈ vs, v.length = d) →
    (vs.foldl (fun a w => a.zipWith (· + ·) w) acc).length = d := by
  intro vs
  induction vs with
  | nil => intro acc ha _; exact ha
  | cons w vs ih =>
    intro acc ha hv
    rw [List.foldl_cons]
    exact ih (acc.zipWith (· + ·) w)
      (by rw [List.length_zipWith, ha, hv w (List.mem_cons_self w vs), Nat.min_self])
      (fun v hmem => hv v (List.mem_cons_of_mem w hmem))

/-- The componentwise fold underlying `vecSum` computes, at every valid
index, the accumulator's component plus the sum of the stack's
components. -/
theorem foldl_zip_getD (d i : Nat) (hi : i < d) : ∀ (vs : List Vec) (acc : Vec),
    acc.length = d → (∀ v ∈ vs, v.length = d) →
    (vs.foldl (fun a w => a.zipWith (· + ·) w) acc).getD i 0
      = acc.getD i 0 + (vs.map (fun v => v.getD i 0)).sum := by
  intro vs
  induction vs with
  | nil =>
    intro acc _ _
    simp
  | cons w vs ih =>
    intro acc ha hv
    have hw : w.length = d := hv w (List.mem_cons_self w vs)
    have hzl : (acc.zipWith (· + ·) w).length = d := by
      rw [List.length_zipWith, ha, hw, Nat.min_self]
    rw [List.foldl_cons,
      ih (acc.zipWith (· + ·) w) hzl (fun v hmem => hv v (List.mem_cons_of_mem w hmem))]
    have hz : (acc.zipWith (· + ·) w).getD i 0 = acc.getD i 0 + w.getD i 0 := by
      rw [List.getD_eq_getElem?_getD, List.getElem?_eq_getElem (by omega : i < (acc.zipWith (· + ·) w).length),
        List.getElem_zipWith, Option.getD_some,
        List.getD_eq_getElem?_getD, List.getElem?_eq_getElem (by omega : i < acc.length),
        List.getD_eq_getElem?_getD, List.getElem?_eq_getElem (by omega : i < w.length),
        Option.getD_some, Option.getD_some]
    rw [hz, List.map_cons, List.sum_cons]
    ring

/-- Dividing componentwise commutes with `getD` at default `0`, because
the default also maps to `0`. -/
theorem getD_map_div (l : List ℚ) (n : ℚ) (i : Nat) :
    (l.map (fun x => x / n)).getD i 0 = l.getD i 0 / n := by
  rw [List.getD_eq_getElem?_getD, List.getD_eq_getElem?_getD, List.getElem?_map]
  cases l[i]? with
  | none => simp
  | some x => simp

/-- C10: `compute_category_embeddings` yields exactly one fingerprint per
category (same labels, same order, one entry each), each fingerprint being
`vecMean` of the encoded descriptions of the category's examples; and
`vecMean` is the arithmetic mean: on a nonempty stack of vectors of a
common dimension it has that dimension and each component is the sum of
the stack's components divided by the number of vectors. -/
theorem spec_C10 (encode : String → Vec) (patterns : Patterns) :
    (compute_category_embeddings encode patterns).map Prod.fst = patterns.map Prod.fst
    ∧ (∀ cat exs, (cat, exs) ∈ patterns →
        (cat, vecMean ((exs.map (fun e => e.description)).map encode))
          ∈ compute_category_embeddings encode patterns)
    ∧ (∀ (d : Nat) (vs : List Vec), (∀ v ∈ vs, v.length = d) → vs ≠ [] →
        (vecMean vs).length = d
        ∧ ∀ i, i < d →
            (vecMean vs).getD i 0
              = (vs.map (fun v => v.getD i 0)).sum / (vs.length : ℚ)) := by
  refine ⟨?_, ?_, ?_⟩
  · unfold compute_category_embeddings
    rw [List.map_map]
    rfl
  · intro cat exs hmem
    exact List.mem_map_of_mem (fun p => (p.1, vecMean ((p.2.map (fun e => e.description)).map encode))) hmem
  · intro d vs hv hne
    match vs, hne with
    | v :: vs', _ =>
      have hlenSum : (vecSum (v :: vs')).length = d := by
        unfold vecSum
        exact foldl_zip_length d vs' v (hv v (List.mem_cons_self v vs'))
          (fun u hu => hv u (List.mem_cons_of_mem v hu))
      constructor
      · unfold vecMean
        rw [List.length_map]
        exact hlenSum
      · intro i hi
        have hsum : (vecSum (v :: vs')).getD i 0
            = v.getD i 0 + (vs'.map (fun u => u.getD i 0)).sum := by
          unfold vecSum
          exact foldl_zip_getD d i hi vs' v (hv v (List.mem_cons_self v vs'))
            (fun u hu => hv u (List.mem_cons_of_mem v hu))
        unfold vecMean
        rw [getD_map_div, hsum, List.map_cons, List.sum_cons]

/-- Witness for C10 at a concrete one-category store and a concrete
two-vector stack: the fingerprint labels match and the mean of the
components `2` and `4` is `3`. -/
theorem spec_C10_witness :
    (compute_category_embeddings (fun _ => [(1 : ℚ)]) patsW).map Prod.fst
        = patsW.map Prod.fst
    ∧ (vecMean [[(2 : ℚ)], [(4 : ℚ)]]).getD 0 0
        = ([[(2 : ℚ)], [(4 : ℚ)]].map (fun v => v.getD 0 0)).sum
            / (([[(2 : ℚ)], [(4 : ℚ)]] : List Vec).length : ℚ) := by
  have h := spec_C10 (fun _ => [(1 : ℚ)]) patsW
  refine ⟨h.1, ?_⟩
  exact ((h.2.2 1 [[(2 : ℚ)], [(4 : ℚ)]] (by decide) (by simp)).2 0 (by omega))

/-- Stable-sort filter invariance, positive case: inserting an element
whose score equals `v` prepends it to the `v`-scored subsequence, because
insertion only skips over strictly larger scores. -/
theorem filter_orderedInsert_of_eq (v : ℚ) (x : String × ℚ) (hx : x.2 = v) :
    ∀ l : List (String × ℚ),
      (List.orderedInsert simRel x l).filter (fun p => decide (p.2 = v))
        = x :: l.filter (fun p => decide (p.2 = v)) := by
  intro l
  induction l with
  | nil => simp [List.orderedInsert, hx]
  | cons b l ih =>
    by_cases hr : simRel x b
    · simp [List.orderedInsert, hr, hx]
    · have hb : ¬(b.2 = v) := by
        intro hbv
        exact hr (by simp [simRel, hx, hbv])
      simp [List.orderedInsert, hr, hb, ih]

/-- Stable-sort filter invariance, negative case: inserting an element
whose score differs from `v` leaves the `v`-scored subsequence unchanged. -/
theorem filter_orderedInsert_of_ne (v : ℚ) (x : String × ℚ) (hx : ¬(x.2 = v)) :
    ∀ l : List (String × ℚ),
      (List.orderedInsert simRel x l).filter (fun p => decide (p.2 = v))
        = l.filter (fun p => decide (p.2 = v)) := by
  intro l
  induction l with
  | nil => simp [List.orderedInsert, hx]
  | cons b l ih =>
    by_cases hr : simRel x b
    · simp [List.orderedInsert, hr, hx]
    · simp only [List.orderedInsert, if_neg hr, List.filter_cons, ih]

/-- Stability of the embedded sort: for every score value, the
subsequence of entries carrying that score is exactly the one of the
input, in the input's order. -/
theorem filter_insertionSort (v : ℚ) : ∀ l : List (String × ℚ),
    (List.insertionSort simRel l).filter (fun p => decide (p.2 = v))
      = l.filter (fun p => decide (p.2 = v)) := by
  intro l
  induction l with
  | nil => rfl
  | cons x l ih =>
    simp only [List.insertionSort]
    by_cases hx : x.2 = v
    · rw [filter_orderedInsert_of_eq v x hx, ih]
      simp [hx]
    · rw [filter_orderedInsert_of_ne v x hx, ih]
      simp [hx]

/-- C2: `find_top_patterns` is the ranking the specification describes.
Writing `sims` for the scored categories in enumeration order and
`ranked` for their stable descending sort: the output is the first
`top_n` labels of `ranked`; its length is `min top_n` (number of
categories); `ranked` is descending in score; its labels are a
permutation of the category labels; for every score value the tied
entries keep their original enumeration order (stable tie-break); and
when fewer than `top_n` categories exist the output is the whole ranking.
Determinism is inherent: the embedding is a pure function, so identical
inputs give the identical list. -/
theorem spec_C2 (encode : String → Vec) (cosSim : Vec → Vec → ℚ)
    (input_text : String) (cats : List (String × Vec)) (top_n : Nat) :
    find_top_patterns encode cosSim input_text cats top_n
        = ((List.insertionSort simRel
            (similarityList encode cosSim input_text cats)).map Prod.fst).take top_n
    ∧ (find_top_patterns encode cosSim input_text cats top_n).length
        = min top_n cats.length
    ∧ List.Sorted simRel
        (List.insertionSort simRel (similarityList encode cosSim input_text cats))
    ∧ List.Perm
        ((List.insertionSort simRel (similarityList encode cosSim input_text cats)).map
          Prod.fst)
        (cats.map Prod.fst)
    ∧ (∀ v : ℚ,
        (List.insertionSort simRel (similarityList encode cosSim input_text cats)).filter
            (fun p => decide (p.2 = v))
          = (similarityList encode cosSim input_text cats).filter
              (fun p => decide (p.2 = v)))
    ∧ (cats.length ≤ top_n →
        find_top_patterns encode cosSim input_text cats top_n
          = (List.insertionSort simRel
              (similarityList encode cosSim input_text cats)).map Prod.fst) := by
  have hfst : (similarityList encode cosSim input_text cats).map Prod.fst
      = cats.map Prod.fst := by
    unfold similarityList
    rw [List.map_map]
    rfl
  have hlen : (List.insertionSort simRel
      (similarityList encode cosSim input_text cats)).length = cats.length := by
    rw [(List.perm_insertionSort simRel
      (similarityList encode cosSim input_text cats)).length_eq]
    unfold similarityList
    rw [List.length_map]
  have h1 : find_top_patterns encode cosSim input_text cats top_n
      = ((List.insertionSort simRel
          (similarityList encode cosSim input_text cats)).map Prod.fst).take top_n := by
    unfold find_top_patterns
    rw [List.map_take]
  refine ⟨h1, ?_, List.sorted_insertionSort simRel _, ?_, fun v => filter_insertionSort v _, ?_⟩
  · rw [h1, List.length_take, List.length_map, hlen]
  · rw [← hfst]
    exact (List.perm_insertionSort simRel
      (similarityList encode cosSim input_text cats)).map Prod.fst
  · intro hle
    rw [h1]
    exact List.take_of_length_le (by rw [List.length_map, hlen]; exact hle)

/-- Witness for C2 at a concrete two-category store with tied scores: the
stable ranking keeps the enumeration order and, since fewer than three
categories exist, all of them are returned. -/
theorem spec_C2_witness :
    find_top_patterns encode0 cos0 "t" cats0 3 = ["a", "b"]
    ∧ find_top_patterns encode0 cos0 "t" cats0 3
        = (List.insertionSort simRel (similarityList encode0 cos0 "t" cats0)).map
            Prod.fst := by
  refine ⟨by decide, ?_⟩
  exact (spec_C2 encode0 cos0 "t" cats0 3).2.2.2.2.2 (by decide)

end GoldenRules
